import Mathlib

set_option maxRecDepth 40000

/-!
Verification of the date-alignment and currency-conversion pipeline of
`src/streamlit_app.py` (token historical prices, USD to EUR).

The definitions below are a shallow embedding of the source:

* the Gregorian calendar loop of the main block (lines 141-156), which walks
  from Jan 1 to Dec 31 of the requested year one day at a time;
* `fetch_exchange_rate` (lines 88-102), which returns the `rates.EUR` field
  of a 200 response and `None` otherwise;
* the `daily_quotes` dictionary construction (lines 131-138), keyed by the
  first ten characters of each record's `time_close`, later records
  overwriting earlier ones;
* the per-day results loop producing one row per calendar day with
  `token_price_eur = usd * rate` when both are present, else `None`;
* the single whole-year request issued to `fetch_market_chart_cmc`
  (lines 119-124) with `time_start`/`time_end` formatted `YYYY-MM-DD`;
* the `st.cache_data(ttl=...)` decorators (lines 44, 67, 88): Streamlit
  memoizes the decorated function's return value keyed by its arguments,
  stores every result (including `None`), and reuses a stored entry while
  its age is below the TTL.

Numbers are modelled as rationals; absent values as `Option`.
-/

/-- Gregorian leap-year rule, as implemented by Python's `datetime.date`
arithmetic used in the main loop. -/
def isLeap (y : ℕ) : Bool :=
  (y % 4 == 0 && y % 100 != 0) || (y % 400 == 0)

/-- Days in each month, parameterised by the leap flag of the year. -/
def daysInMonth (leap : Bool) (m : ℕ) : ℕ :=
  if m = 2 then (if leap then 29 else 28)
  else if m = 4 ∨ m = 6 ∨ m = 9 ∨ m = 11 then 30
  else 31

/-- Successor of a `(month, day)` pair within one year: the embedding of
`current_date += timedelta(days=1)`.  After Dec 31 it yields `(13, 1)`. -/
def nextDay (leap : Bool) (md : ℕ × ℕ) : ℕ × ℕ :=
  if md.2 < daysInMonth leap md.1 then (md.1, md.2 + 1) else (md.1 + 1, 1)

/-- Fuelled embedding of the `while current_date <= end_date_obj` loop: emit
the current `(month, day)` while the month is still within the year. -/
def dayLoop (leap : Bool) : ℕ → (ℕ × ℕ) → List (ℕ × ℕ)
  | 0, _ => []
  | fuel + 1, md => if md.1 ≤ 12 then md :: dayLoop leap fuel (nextDay leap md) else []

/-- All `(month, day)` pairs of year `y`, Jan 1 through Dec 31, in loop order.
Fuel 400 exceeds the 366 iterations any year needs. -/
def yearDates (y : ℕ) : List (ℕ × ℕ) := dayLoop (isLeap y) 400 (1, 1)

/-- Two-digit zero padding used by `strftime`. -/
def pad2 (n : ℕ) : String := if n < 10 then "0" ++ toString n else toString n

/-- `current_date.strftime("%Y-%m-%d")` for the years the widget admits
(2000-2100, hence four year digits). -/
def fmtDate (y m d : ℕ) : String := toString y ++ "-" ++ pad2 m ++ "-" ++ pad2 d

/-- The `day_str` values of the main loop, in order. -/
def dayStrs (y : ℕ) : List String := (yearDates y).map (fun md => fmtDate y md.1 md.2)

/-- One OHLCV record of the market-chart payload: its `time_close` string
(`""` when the key is missing) and its `quote.USD.close` value (`none` when
any of those keys is missing). -/
structure Record where
  time_close : String
  close : Option ℚ
deriving DecidableEq

/-- `record.get("time_close", "")[:10]`, slicing the first ten characters. -/
def dateKey (r : Record) : String := String.mk (r.time_close.toList.take 10)

/-- The `daily_quotes` dictionary built at lines 132-138, as a lookup
function: `some v` when the key was inserted with stored value `v`
(`v : Option ℚ` itself, since a record's close may be missing), `none` when
the key is absent.  Records whose sliced date string is empty are skipped
(`if date_str:`); later records overwrite earlier ones. -/
def buildDailyQuotes (quotes : List Record) : String → Option (Option ℚ) :=
  quotes.foldl
    (fun dq r =>
      if dateKey r = "" then dq
      else fun k => if k = dateKey r then some r.close else dq k)
    (fun _ => none)

/-- `daily_quotes.get(day_str, None)`: the stored close when present,
`None` otherwise (both Option layers collapse to one). -/
def getQuote (dq : String → Option (Option ℚ)) (k : String) : Option ℚ :=
  (dq k).getD none

/-- The exchange-rate HTTP response as `fetch_exchange_rate` inspects it on
its returning (non-raising) path: its status code and the
`data.get("rates", ...).get("EUR", None)` field (`none` when either key is
missing).  A 200 response whose body `response.json()` cannot parse makes
the source raise instead of returning; that path is modelled separately by
`RateBody`/`RateHttp`/`fetch_exchange_rate_full` below. -/
structure RateResponse where
  status : ℕ
  ratesEUR : Option ℚ

/-- Lines 88-102, returning path only: the EUR rate of a well-formed 200
response, `None` for any non-success status; a well-formed payload missing
the rate fields also yields `None`.  The raising path (malformed 200 body)
is modelled by `fetch_exchange_rate_full`. -/
def fetch_exchange_rate (resp : RateResponse) : Option ℚ :=
  if resp.status = 200 then resp.ratesEUR else none

/-- The body of an exchange-rate response: `malformed` when `response.json()`
at line 99 would raise (non-JSON body, or a `rates` entry that is not a dict,
making the `.get` chain at line 100 raise); `parsed` with the optional
`rates.EUR` value otherwise. -/
inductive RateBody where
  | malformed
  | parsed (ratesEUR : Option ℚ)
deriving DecidableEq

/-- An exchange-rate HTTP response with its body's parse behaviour kept. -/
structure RateHttp where
  status : ℕ
  body : RateBody
deriving DecidableEq

/-- Lines 97-102 with the full error behaviour: on status 200 the body is
parsed — a malformed body makes `response.json()` (line 99) raise, modelled
as `Except.error`, and a well-formed one yields its optional `rates.EUR` —
while on any other status the body is never touched and `None` is returned
(so even an unparseable body is harmless there). -/
def fetch_exchange_rate_full (resp : RateHttp) : Except String (Option ℚ) :=
  if resp.status = 200 then
    match resp.body with
    | RateBody.malformed => Except.error "Fehler: JSONDecodeError"
    | RateBody.parsed r => Except.ok r
  else Except.ok none

/-- Whether a rate fetch returns (rather than raises). -/
def fetchOk (r : Except String (Option ℚ)) : Bool :=
  match r with
  | Except.ok _ => true
  | Except.error _ => false

/-- The value a returning rate fetch produces (`none` placeholder on the
error case, used only under a `fetchOk` hypothesis). -/
def okRate (r : Except String (Option ℚ)) : Option ℚ :=
  match r with
  | Except.ok v => v
  | Except.error _ => none

/-- Line 148: `token_price_usd * usd_to_eur if token_price_usd is not None
and usd_to_eur is not None else None`. -/
def combineEur (usd rate : Option ℚ) : Option ℚ :=
  match usd, rate with
  | some u, some r => some (u * r)
  | _, _ => none

/-- One row appended at lines 150-155. -/
structure Row where
  date : String
  usd : Option ℚ
  rate : Option ℚ
  eur : Option ℚ
deriving DecidableEq

/-- The body of one iteration of the per-day loop. -/
def mkRow (dq : String → Option (Option ℚ)) (rateFn : String → Option ℚ)
    (ds : String) : Row :=
  { date := ds
    usd := getQuote dq ds
    rate := rateFn ds
    eur := combineEur (getQuote dq ds) (rateFn ds) }

/-- The `results` list of the main block: one row per `day_str` of the year,
appended unconditionally.  `rateFn` is the per-date result of
`fetch_exchange_rate` (the loop calls it once per day with `day_str`). -/
def buildResults (quotes : List Record) (rateFn : String → Option ℚ) (y : ℕ) :
    List Row :=
  (dayStrs y).map (mkRow (buildDailyQuotes quotes) rateFn)

/-- Lines 127-129 and onwards: `if not quotes:` shows an error and produces
no table or CSV; otherwise the report is built. -/
def runReport (quotes : List Record) (rateFn : String → Option ℚ) (y : ℕ) :
    Except String (List Row) :=
  if quotes = [] then Except.error "Es wurden keine Preisdaten gefunden."
  else Except.ok (buildResults quotes rateFn y)

/-- Seconds past midnight encoded in positions 11-18 (`HH:MM:SS`) of an ISO
timestamp string such as `2023-01-01T23:59:59.000Z`. -/
def timeOfDaySecs (s : String) : ℕ :=
  let l := s.toList
  let dg := fun i => (l.getD i '0').toNat - 48
  (dg 11 * 10 + dg 12) * 3600 + (dg 14 * 10 + dg 15) * 60 + (dg 17 * 10 + dg 18)

/-- Absolute distance of a record's close timestamp to the 12:00:00
reference instant (43200 seconds past midnight). -/
def noonDist (r : Record) : ℕ :=
  max (timeOfDaySecs r.time_close) 43200 - min (timeOfDaySecs r.time_close) 43200

/-- Modelled from the spec: "among all PriceSamples whose date matches,
choose the one whose timestamp has minimum absolute distance to the
reference instant [12:00:00]; if no sample exists for that date, the date's
`usd_price` is absent".  Ties keep the earlier record. -/
def specNoonPrice (quotes : List Record) (k : String) : Option ℚ :=
  match quotes.filter (fun r => dateKey r == k) with
  | [] => none
  | r :: rs => (rs.foldl (fun best r2 => if noonDist r2 < noonDist best then r2 else best) r).close

/-- Appending one record to the quote list updates the dictionary at that
record's date key (unless the key is empty, in which case it is skipped). -/
theorem buildDailyQuotes_concat (l : List Record) (r : Record) :
    buildDailyQuotes (l ++ [r]) =
      if dateKey r = "" then buildDailyQuotes l
      else fun k => if k = dateKey r then some r.close else buildDailyQuotes l k := by
  simp only [buildDailyQuotes, List.foldl_append, List.foldl_cons, List.foldl_nil]

/-- The dictionary value at a non-empty key is the close of the last record
in payload order whose sliced date equals that key. -/
theorem buildDailyQuotes_getLast (quotes : List Record) (k : String) (hk : k ≠ "") :
    buildDailyQuotes quotes k =
      ((quotes.filter (fun r => dateKey r == k)).getLast?).map Record.close := by
  induction quotes using List.reverseRecOn with
  | nil => simp [buildDailyQuotes]
  | append_singleton l r ih =>
    rw [buildDailyQuotes_concat]
    by_cases h0 : dateKey r = ""
    · have hne : ("" : String) ≠ k := fun h => hk h.symm
      simp [h0, List.filter_append, hne, ih]
    · by_cases hkr : k = dateKey r
      · simp [h0, List.filter_append, hkr, List.getLast?_concat]
      · have hne : dateKey r ≠ k := fun h => hkr h.symm
        simp [h0, List.filter_append, hne, hkr, ih]

/-- Two same-day records; the record closer to noon comes first, the later
record is last in payload order. -/
def exSameDay : List Record :=
  [⟨"2023-03-05T11:00:00.000Z", some 100⟩, ⟨"2023-03-05T23:59:59.000Z", some 110⟩]

/-- C10: when several quote records share one calendar date, the USD price
recorded for that date is the close price of the last such record in
response order — later records overwrite earlier ones in `daily_quotes`. -/
theorem daily_quotes_last_record_wins (quotes : List Record) (k : String) (rlast : Record)
    (hk : k ≠ "")
    (hlast : (quotes.filter (fun r => dateKey r == k)).getLast? = some rlast) :
    getQuote (buildDailyQuotes quotes) k = rlast.close := by
  simp [getQuote, buildDailyQuotes_getLast quotes k hk, hlast]

/-- Witness for C10: of two records dated 2023-03-05 the later one (close
110) is the one the dictionary retains. -/
theorem daily_quotes_last_record_wins_witness :
    getQuote (buildDailyQuotes exSameDay) "2023-03-05"
      = (Record.mk "2023-03-05T23:59:59.000Z" (some 110)).close :=
  daily_quotes_last_record_wins exSameDay "2023-03-05" _ (by decide) (by decide)

/-- Counterexample for C4: on 2023-03-05 the sample at 11:00 (price 100) is
nearest to noon (3600 s vs 43199 s), yet the code records 110 — the close of
the last record — so the nearest-to-noon selection rule is false of the code. -/
theorem noon_rule_counterexample :
    getQuote (buildDailyQuotes exSameDay) "2023-03-05" = some 110
    ∧ specNoonPrice exSameDay "2023-03-05" = some 100
    ∧ noonDist ⟨"2023-03-05T11:00:00.000Z", some 100⟩ = 3600
    ∧ noonDist ⟨"2023-03-05T23:59:59.000Z", some 110⟩ = 43199
    ∧ (some (110 : ℚ)) ≠ some (100 : ℚ) := by
  refine ⟨by decide, by decide, by decide, by decide, by decide⟩

/-- C4 (amended): for every calendar date the recorded USD price ignores the
time of day entirely — a date with no matching record has an absent price,
and a date with matching records gets the close of the last one in response
order. -/
theorem usd_price_ignores_time_of_day (quotes : List Record) (k : String) (hk : k ≠ "") :
    (quotes.filter (fun r => dateKey r == k) = [] →
      getQuote (buildDailyQuotes quotes) k = none)
    ∧ ∀ rlast, (quotes.filter (fun r => dateKey r == k)).getLast? = some rlast →
      getQuote (buildDailyQuotes quotes) k = rlast.close := by
  constructor
  · intro hnone
    simp [getQuote, buildDailyQuotes_getLast quotes k hk, hnone]
  · intro rlast hlast
    simp [getQuote, buildDailyQuotes_getLast quotes k hk, hlast]

/-- Witness for C4 (amended): a date with no record resolves to an absent
price. -/
theorem usd_price_ignores_time_of_day_witness :
    getQuote (buildDailyQuotes exSameDay) "2023-07-07" = none :=
  (usd_price_ignores_time_of_day exSameDay "2023-07-07" (by decide)).1 (by decide)

theorem mkRow_date (dq : String → Option (Option ℚ)) (rf : String → Option ℚ)
    (ds : String) : (mkRow dq rf ds).date = ds := rfl

theorem mkRow_usd (dq : String → Option (Option ℚ)) (rf : String → Option ℚ)
    (ds : String) : (mkRow dq rf ds).usd = getQuote dq ds := rfl

theorem mkRow_rate (dq : String → Option (Option ℚ)) (rf : String → Option ℚ)
    (ds : String) : (mkRow dq rf ds).rate = rf ds := rfl

theorem mkRow_eur (dq : String → Option (Option ℚ)) (rf : String → Option ℚ)
    (ds : String) : (mkRow dq rf ds).eur = combineEur (getQuote dq ds) (rf ds) := rfl

theorem combineEur_none_right (u : Option ℚ) : combineEur u none = none := by
  cases u <;> rfl

/-- The dates of the produced rows are exactly the `day_str` values of the
year, in order: no row is dropped or reordered. -/
theorem buildResults_map_date (quotes : List Record) (rateFn : String → Option ℚ)
    (y : ℕ) : (buildResults quotes rateFn y).map Row.date = dayStrs y := by
  simp [buildResults, List.map_map, Function.comp_def, mkRow_date]

/-- Strict lexicographic order on `(month, day)` pairs. -/
def dateLtB (a b : ℕ × ℕ) : Bool := a.1 < b.1 || (a.1 == b.1 && a.2 < b.2)

/-- Boolean check that adjacent list entries satisfy a relation. -/
def chainB (p : (ℕ × ℕ) → (ℕ × ℕ) → Bool) : List (ℕ × ℕ) → Bool
  | [] => true
  | [_] => true
  | a :: b :: rest => p a b && chainB p (b :: rest)

/-- C2: for every admissible year the report has exactly one row per
calendar day — 366 iff the year is a Gregorian leap year, else 365 — the row
dates are exactly the year's day strings in order, and the underlying
calendar sequence is strictly increasing and contiguous (each entry is the
day successor of the previous one).  Rows are appended regardless of absent
values. -/
theorem report_full_calendar (quotes : List Record) (rateFn : String → Option ℚ)
    (y : ℕ) (hy1 : 2000 ≤ y) (hy2 : y ≤ 2100) :
    (buildResults quotes rateFn y).map Row.date = dayStrs y
    ∧ (buildResults quotes rateFn y).length = (if isLeap y then 366 else 365)
    ∧ chainB dateLtB (yearDates y) = true
    ∧ chainB (fun a b => b == nextDay (isLeap y) a) (yearDates y) = true := by
  refine ⟨buildResults_map_date quotes rateFn y, ?_, ?_, ?_⟩
  · have hlen : (buildResults quotes rateFn y).length = (yearDates y).length := by
      simp [buildResults, dayStrs]
    rw [hlen]
    cases h : isLeap y <;> simp only [yearDates, h] <;> decide
  · cases h : isLeap y <;> simp only [yearDates, h] <;> decide
  · cases h : isLeap y <;> simp only [yearDates, h] <;> decide

/-- Witness for C2 at the leap year 2024. -/
theorem report_full_calendar_witness :
    (buildResults [] (fun _ => none) 2024).map Row.date = dayStrs 2024
    ∧ (buildResults [] (fun _ => none) 2024).length = (if isLeap 2024 then 366 else 365)
    ∧ chainB dateLtB (yearDates 2024) = true
    ∧ chainB (fun a b => b == nextDay (isLeap 2024) a) (yearDates 2024) = true :=
  report_full_calendar [] (fun _ => none) 2024 (by decide) (by decide)

/-- C6: an empty quote series is terminal — the pipeline reports a
user-visible error and produces no report — while a non-empty (possibly
partial) series always yields the full report. -/
theorem empty_quotes_terminal (quotes : List Record) (rateFn : String → Option ℚ)
    (y : ℕ) :
    (quotes = [] →
      runReport quotes rateFn y = Except.error "Es wurden keine Preisdaten gefunden.")
    ∧ (quotes ≠ [] →
      runReport quotes rateFn y = Except.ok (buildResults quotes rateFn y)) := by
  constructor <;> intro h <;> simp [runReport, h]

/-- Witness for C6: empty payload errors, a two-record payload succeeds. -/
theorem empty_quotes_terminal_witness :
    runReport [] (fun _ => none) 2023 = Except.error "Es wurden keine Preisdaten gefunden."
    ∧ runReport exSameDay (fun _ => none) 2023
        = Except.ok (buildResults exSameDay (fun _ => none) 2023) :=
  ⟨(empty_quotes_terminal [] (fun _ => none) 2023).1 rfl,
   (empty_quotes_terminal exSameDay (fun _ => none) 2023).2 (by decide)⟩

/-- Rate responses available only on 2023-01-01 (rate value 2); every other
date answers with status 500 and no payload. -/
def exResp : String → RateResponse := fun s =>
  if s = "2023-01-01" then ⟨200, some 2⟩ else ⟨500, none⟩

/-- The per-day results loop (lines 141-156) with the exception behaviour of
`fetch_exchange_rate` kept: each iteration performs that date's rate fetch;
a raising fetch propagates out of the loop (no further date is processed and
the rows built so far are discarded by the `except` handler), while a
returning fetch contributes one row, appended unconditionally. -/
def rowsLoop (dq : String → Option (Option ℚ)) (resp : String → RateHttp) :
    List String → Except String (List Row)
  | [] => Except.ok []
  | ds :: rest =>
    match fetch_exchange_rate_full (resp ds) with
    | Except.error e => Except.error e
    | Except.ok rate =>
      match rowsLoop dq resp rest with
      | Except.error e => Except.error e
      | Except.ok rows =>
        Except.ok ({ date := ds
                     usd := getQuote dq ds
                     rate := rate
                     eur := combineEur (getQuote dq ds) rate } :: rows)

/-- Lines 110-171: the guarded block around the pipeline.  An empty quote
list ends with only an error message (lines 127-129), and an exception
raised anywhere inside — in particular by a malformed rate payload — lands
in the `except` at line 170, which shows the message and produces no table
or CSV. -/
def runReportFull (quotes : List Record) (resp : String → RateHttp) (y : ℕ) :
    Except String (List Row) :=
  if quotes = [] then Except.error "Es wurden keine Preisdaten gefunden."
  else rowsLoop (buildDailyQuotes quotes) resp (dayStrs y)

/-- When every date's fetch returns, the loop completes and produces exactly
the rows of the non-raising model. -/
theorem rowsLoop_ok (dq : String → Option (Option ℚ)) (resp : String → RateHttp) :
    ∀ days : List String,
      (∀ d ∈ days, fetchOk (fetch_exchange_rate_full (resp d)) = true) →
      rowsLoop dq resp days
        = Except.ok (days.map (mkRow dq (fun s => okRate (fetch_exchange_rate_full (resp s))))) := by
  intro days
  induction days with
  | nil => intro h; rfl
  | cons d rest ih =>
    intro h
    have hd := h d (List.mem_cons_self d rest)
    cases hfd : fetch_exchange_rate_full (resp d) with
    | error e => rw [hfd] at hd; simp [fetchOk] at hd
    | ok v =>
      have hrest := ih (fun d2 hd2 => h d2 (List.mem_cons_of_mem d hd2))
      simp [rowsLoop, hfd, hrest, mkRow, okRate]

/-- A date whose fetch raises makes the whole loop end in that (or an
earlier) exception: no row list is produced at all. -/
theorem rowsLoop_error (dq : String → Option (Option ℚ)) (resp : String → RateHttp) :
    ∀ (days : List String) (ds : String), ds ∈ days →
      ∀ e, fetch_exchange_rate_full (resp ds) = Except.error e →
        ∃ e2, rowsLoop dq resp days = Except.error e2 := by
  intro days
  induction days with
  | nil => intro ds hds; exact absurd hds (List.not_mem_nil ds)
  | cons d rest ih =>
    intro ds hds e he
    cases hfd : fetch_exchange_rate_full (resp d) with
    | error e1 => exact ⟨e1, by simp [rowsLoop, hfd]⟩
    | ok v =>
      rcases List.mem_cons.mp hds with h1 | h2
      · subst h1; rw [he] at hfd; exact Except.noConfusion hfd
      · obtain ⟨e2, h2e⟩ := ih ds h2 e he
        exact ⟨e2, by simp [rowsLoop, hfd, h2e]⟩

/-- Responses for the malformed-payload scenario: on 2023-01-02 the server
answers 200 with a body `response.json()` cannot parse; every other date
answers 200 with a well-formed payload carrying rate 2. -/
def exRespBad : String → RateHttp := fun s =>
  if s = "2023-01-02" then ⟨200, RateBody.malformed⟩
  else ⟨200, RateBody.parsed (some 2)⟩

/-- Counterexample for C7: a malformed payload on a 200 response is a raise,
not an absent value — the exception aborts the whole pipeline on 2023-01-02
and no report at all is produced, so the remaining dates are not processed. -/
theorem malformed_payload_counterexample :
    (exRespBad "2023-01-02").status = 200
    ∧ fetch_exchange_rate_full (exRespBad "2023-01-02")
        = Except.error "Fehler: JSONDecodeError"
    ∧ runReportFull exSameDay exRespBad 2023
        = Except.error "Fehler: JSONDecodeError" := by
  refine ⟨rfl, rfl, rfl⟩

/-- C7 (amended): a rate fetch that fails without raising — any non-success
status (even with an unparseable body, since the body is then never parsed)
or a well-formed 200 payload missing the rate — leaves that date's rate and
EUR price absent in its kept row, and, provided no date's fetch raises, all
remaining dates are still processed and the report covers the whole year;
but a date whose fetch raises (malformed 200 payload) aborts the loop with
an uncaught exception and no rows are produced at all. -/
theorem rate_failure_isolated_or_abort (quotes : List Record)
    (resp : String → RateHttp) (y : ℕ) (ds : String) (hmem : ds ∈ dayStrs y) :
    ((∀ d ∈ dayStrs y, fetchOk (fetch_exchange_rate_full (resp d)) = true) →
      fetch_exchange_rate_full (resp ds) = Except.ok none →
      rowsLoop (buildDailyQuotes quotes) resp (dayStrs y)
        = Except.ok (buildResults quotes
            (fun s => okRate (fetch_exchange_rate_full (resp s))) y)
      ∧ (buildResults quotes
            (fun s => okRate (fetch_exchange_rate_full (resp s))) y).map Row.date
          = dayStrs y
      ∧ ∃ row ∈ buildResults quotes
            (fun s => okRate (fetch_exchange_rate_full (resp s))) y,
          row.date = ds ∧ row.rate = none ∧ row.eur = none)
    ∧ (∀ e, fetch_exchange_rate_full (resp ds) = Except.error e →
        ∃ e2, rowsLoop (buildDailyQuotes quotes) resp (dayStrs y) = Except.error e2) := by
  constructor
  · intro hall hds
    refine ⟨rowsLoop_ok (buildDailyQuotes quotes) resp (dayStrs y) hall,
      buildResults_map_date quotes _ y, ?_⟩
    refine ⟨mkRow (buildDailyQuotes quotes)
        (fun s => okRate (fetch_exchange_rate_full (resp s))) ds,
      List.mem_map_of_mem _ hmem, mkRow_date _ _ _, ?_, ?_⟩
    · rw [mkRow_rate]
      show okRate (fetch_exchange_rate_full (resp ds)) = none
      rw [hds]; rfl
    · rw [mkRow_eur]
      show combineEur _ (okRate (fetch_exchange_rate_full (resp ds))) = none
      rw [hds]; exact combineEur_none_right _
  · intro e he
    exact rowsLoop_error (buildDailyQuotes quotes) resp (dayStrs y) ds hmem e he

/-- Responses for the isolated-failure scenario: 2023-01-01 succeeds with
rate 2; every other date answers 500 (whose body — here even malformed — is
never parsed), so every fetch returns and exactly one date has a rate. -/
def exRespFull : String → RateHttp := fun s =>
  if s = "2023-01-01" then ⟨200, RateBody.parsed (some 2)⟩
  else ⟨500, RateBody.malformed⟩

/-- Witness for C7 (amended): with the fetch failing non-raisingly on
2023-01-02, the loop completes, the report spans the year, and that row
carries no rate and no EUR price. -/
theorem rate_failure_isolated_or_abort_witness :
    rowsLoop (buildDailyQuotes exSameDay) exRespFull (dayStrs 2023)
      = Except.ok (buildResults exSameDay
          (fun s => okRate (fetch_exchange_rate_full (exRespFull s))) 2023)
    ∧ (buildResults exSameDay
          (fun s => okRate (fetch_exchange_rate_full (exRespFull s))) 2023).map Row.date
        = dayStrs 2023
    ∧ ∃ row ∈ buildResults exSameDay
          (fun s => okRate (fetch_exchange_rate_full (exRespFull s))) 2023,
        row.date = "2023-01-02" ∧ row.rate = none ∧ row.eur = none :=
  (rate_failure_isolated_or_abort exSameDay exRespFull 2023 "2023-01-02"
    (by decide)).1 (by decide) rfl

/-- Modelled from the spec: forward-fill — "a missing date's rate equals the
most recent prior date's rate (monotonic carry-forward starting from the
first available rate; dates before the first available rate remain
absent)".  `avail` is the upstream per-date availability, `prev` the carried
value (initially `none`). -/
def specForwardFill (avail : String → Option ℚ) : List String → Option ℚ → List (Option ℚ)
  | [], _ => []
  | d :: ds, prev =>
    match avail d with
    | some r => some r :: specForwardFill avail ds (some r)
    | none => prev :: specForwardFill avail ds prev

/-- Counterexample for C1: the upstream rate exists on 2023-01-01 (value 2)
and is missing on 2023-01-02.  Forward-fill prescribes 2 for the second
row; the code's second row carries no rate at all. -/
theorem forward_fill_counterexample :
    ((buildResults [] (fun s => fetch_exchange_rate (exResp s)) 2023).map Row.rate).get? 1
      = some none
    ∧ (specForwardFill (fun s => fetch_exchange_rate (exResp s)) (dayStrs 2023) none).get? 1
      = some (some 2)
    ∧ some (none : Option ℚ) ≠ some (some (2 : ℚ)) := by
  refine ⟨by decide, by decide, by decide⟩

/-- C1 (amended): the aligner performs a direct per-date lookup with no
fill — every row's rate is exactly the result of that date's own
`fetch_exchange_rate` call, absent whenever that call fails, regardless of
neighbouring dates. -/
theorem rate_is_direct_lookup (quotes : List Record) (resp : String → RateResponse)
    (y : ℕ) (row : Row)
    (hrow : row ∈ buildResults quotes (fun s => fetch_exchange_rate (resp s)) y) :
    row.rate = fetch_exchange_rate (resp row.date) := by
  simp only [buildResults, List.mem_map] at hrow
  obtain ⟨ds, hds, rfl⟩ := hrow
  rfl

/-- Witness for C1 (amended) at the first row of 2023. -/
theorem rate_is_direct_lookup_witness :
    (mkRow (buildDailyQuotes []) (fun s => fetch_exchange_rate (exResp s)) "2023-01-01").rate
      = fetch_exchange_rate (exResp "2023-01-01") :=
  rate_is_direct_lookup [] exResp 2023 _ (List.mem_map_of_mem _ (by decide))

/-- Modelled from the spec: rounding to `k` fractional decimal digits
(round half up). -/
def specRoundTo (k : ℕ) (q : ℚ) : ℚ := (round (q * 10 ^ k) : ℤ) / 10 ^ k

/-- Counterexample for C3: at `usd = 100.123456`, `rate = 0.9234` the code's
EUR price is the exact product `92.4539992704`, whose reduced denominator
78125000 does not divide `10^6` — the value carries more than six fractional
digits, so it differs from its rounding at every precision of the spec's
fixed range (2, 4, 5 or 6 digits); no rounding is applied by the code. -/
theorem rounding_counterexample :
    combineEur (some ((100123456 : ℚ)/1000000)) (some ((9234 : ℚ)/10000))
      = some ((924539992704 : ℚ)/10000000000)
    ∧ ((924539992704 : ℚ)/10000000000).den = 78125000
    ∧ ¬ ((78125000 : ℕ) ∣ 10 ^ 6)
    ∧ specRoundTo 2 ((924539992704 : ℚ)/10000000000) ≠ (924539992704 : ℚ)/10000000000
    ∧ specRoundTo 4 ((924539992704 : ℚ)/10000000000) ≠ (924539992704 : ℚ)/10000000000
    ∧ specRoundTo 5 ((924539992704 : ℚ)/10000000000) ≠ (924539992704 : ℚ)/10000000000
    ∧ specRoundTo 6 ((924539992704 : ℚ)/10000000000) ≠ (924539992704 : ℚ)/10000000000 := by
  refine ⟨by norm_num [combineEur], by norm_num, by norm_num, ?_, ?_, ?_, ?_⟩ <;>
    norm_num [specRoundTo, round_eq]

/-- C3 (amended): a row's EUR price is present iff both the USD price and
the rate are present, and when present it equals the exact product
`usd * rate` — no decimal rounding is applied. -/
theorem eur_price_present_iff_product (quotes : List Record) (rateFn : String → Option ℚ)
    (y : ℕ) (row : Row) (hrow : row ∈ buildResults quotes rateFn y) :
    (row.eur.isSome ↔ (row.usd.isSome ∧ row.rate.isSome))
    ∧ ∀ u r, row.usd = some u → row.rate = some r → row.eur = some (u * r) := by
  simp only [buildResults, List.mem_map] at hrow
  obtain ⟨ds, hds, rfl⟩ := hrow
  constructor
  · rw [mkRow_eur, mkRow_usd, mkRow_rate]
    cases getQuote (buildDailyQuotes quotes) ds <;> cases rateFn ds <;> simp [combineEur]
  · intro u r hu hr
    rw [mkRow_usd] at hu
    rw [mkRow_rate] at hr
    rw [mkRow_eur, hu, hr]
    rfl

/-- Witness for C3 (amended): on 2023-03-05 both inputs are present and the
EUR price is their exact product. -/
theorem eur_price_present_iff_product_witness :
    (mkRow (buildDailyQuotes exSameDay) (fun _ => some (2 : ℚ)) "2023-03-05").eur
      = some ((110 : ℚ) * (2 : ℚ)) :=
  (eur_price_present_iff_product exSameDay (fun _ => some (2 : ℚ)) 2023 _
    (List.mem_map_of_mem _ (by decide))).2 110 2 (by decide) (by decide)

/-- The query parameters of one `/v2/cryptocurrency/ohlcv/historical`
request (lines 73-79): `time_start` and `time_end`, each rendered by
`strftime("%Y-%m-%d")`. -/
structure ChartRequest where
  time_start : String
  time_end : String
deriving DecidableEq

/-- Lines 119-124: the main block issues exactly one market-chart request
for the whole year, from `datetime(year, 1, 1)` to `datetime(year, 12, 31)`.
There is no windowing loop anywhere in the fetch path. -/
def yearChartRequests (y : ℕ) : List ChartRequest :=
  [⟨fmtDate y 1 1, fmtDate y 12 31⟩]

/-- Counterexample for C5: for the 365-day year 2023 the code issues one
request, not the five 90-day windows the claim prescribes. -/
theorem chunk_count_counterexample :
    (yearChartRequests 2023).length = 1 ∧ (yearChartRequests 2023).length ≠ 5 := by
  refine ⟨rfl, by decide⟩

/-- C5 (amended): the whole year is fetched in a single request whose bounds
are Jan 1 and Dec 31 of the year; its span (the full calendar year, 365 or
366 days) exceeds the 90-day window bound, so no chunking takes place. -/
theorem single_request_whole_year (y : ℕ) :
    yearChartRequests y = [⟨fmtDate y 1 1, fmtDate y 12 31⟩]
    ∧ (yearChartRequests y).length = 1
    ∧ 90 < (yearDates y).length := by
  refine ⟨rfl, rfl, ?_⟩
  cases h : isLeap y <;> simp only [yearDates, h] <;> decide

/-- One memoised value with the instant it was stored. -/
structure CacheEntry (α : Type) where
  value : α
  fetchedAt : ℕ
deriving DecidableEq

/-- Outcome of calling a cached fetch function: the returned value, the
cache afterwards, and whether the underlying fetch was invoked. -/
structure CacheResult (α : Type) where
  value : α
  cache : String → Option (CacheEntry α)
  invoked : Bool

/-- Models the `st.cache_data(ttl=...)` decorator applied to the three fetch
functions (lines 44, 67, 88): Streamlit memoizes the decorated function's
return value keyed by its arguments, stores every result — including `None`
from a failed fetch — and serves a stored entry while its age is below the
TTL, re-invoking the function (and overwriting the entry) once the entry has
expired or is absent. -/
def cacheCall {α : Type} (cache : String → Option (CacheEntry α)) (key : String)
    (now ttl : ℕ) (fetch : Unit → α) : CacheResult α :=
  match cache key with
  | some e =>
    if now - e.fetchedAt < ttl then ⟨e.value, cache, false⟩
    else ⟨fetch (), fun k => if k = key then some ⟨fetch (), now⟩ else cache k, true⟩
  | none => ⟨fetch (), fun k => if k = key then some ⟨fetch (), now⟩ else cache k, true⟩

/-- Line 44: `@st.cache_data(ttl=3600)` on `fetch_token_info_cmc`. -/
def fetch_token_info_ttl : ℕ := 3600

/-- Line 67: `@st.cache_data(ttl=3600)` on `fetch_market_chart_cmc`. -/
def fetch_market_chart_ttl : ℕ := 3600

/-- Line 88: `@st.cache_data(ttl=86400)` on `fetch_exchange_rate`. -/
def fetch_exchange_rate_ttl : ℕ := 86400

/-- Counterexample for C8: a fetch that fails (returns `None`) is stored in
the cache, and a later call with the same key within the TTL returns the
cached absence without re-invoking the fetch — even though the fetch would
now succeed with rate 2. -/
theorem failed_fetch_cached_counterexample :
    (cacheCall (fun _ => none) "2023-01-07" 1000 86400 (fun _ => (none : Option ℚ))).cache
        "2023-01-07" = some ⟨none, 1000⟩
    ∧ (cacheCall (cacheCall (fun _ => none) "2023-01-07" 1000 86400
          (fun _ => (none : Option ℚ))).cache "2023-01-07" 1010 86400
          (fun _ => some (2 : ℚ))).invoked = false
    ∧ (cacheCall (cacheCall (fun _ => none) "2023-01-07" 1000 86400
          (fun _ => (none : Option ℚ))).cache "2023-01-07" 1010 86400
          (fun _ => some (2 : ℚ))).value = none
    ∧ some (2 : ℚ) ≠ (none : Option ℚ) := by
  refine ⟨rfl, rfl, rfl, by decide⟩

/-- C8 (amended): on a cache miss the fetch is invoked and its result is
stored unconditionally — a failed fetch's `None` included — and any
subsequent call with the same key whose age is below the TTL returns the
stored value without invoking its fetch function. -/
theorem cache_stores_failures {α : Type} (cache : String → Option (CacheEntry α))
    (key : String) (now now2 ttl : ℕ) (f1 f2 : Unit → α)
    (hmiss : cache key = none) (hfresh : now2 - now < ttl) :
    (cacheCall cache key now ttl f1).invoked = true
    ∧ (cacheCall cache key now ttl f1).cache key = some ⟨f1 (), now⟩
    ∧ (cacheCall (cacheCall cache key now ttl f1).cache key now2 ttl f2).value = f1 ()
    ∧ (cacheCall (cacheCall cache key now ttl f1).cache key now2 ttl f2).invoked = false := by
  have h1 : cacheCall cache key now ttl f1
      = ⟨f1 (), fun k => if k = key then some ⟨f1 (), now⟩ else cache k, true⟩ := by
    simp [cacheCall, hmiss]
  refine ⟨by rw [h1], by rw [h1]; simp, ?_, ?_⟩ <;>
    rw [h1] <;> simp [cacheCall, hfresh]

/-- Witness for C8 (amended): the `None` of a failed exchange-rate fetch is
stored at time 100 and still served at time 150. -/
theorem cache_stores_failures_witness :
    (cacheCall (fun _ => none) "k" 100 86400 (fun _ => (none : Option ℚ))).invoked = true
    ∧ (cacheCall (fun _ => none) "k" 100 86400 (fun _ => (none : Option ℚ))).cache "k"
        = some ⟨none, 100⟩
    ∧ (cacheCall (cacheCall (fun _ => none) "k" 100 86400
          (fun _ => (none : Option ℚ))).cache "k" 150 86400
          (fun _ => some (2 : ℚ))).value = none
    ∧ (cacheCall (cacheCall (fun _ => none) "k" 100 86400
          (fun _ => (none : Option ℚ))).cache "k" 150 86400
          (fun _ => some (2 : ℚ))).invoked = false :=
  cache_stores_failures (fun _ => none) "k" 100 150 86400 (fun _ => none)
    (fun _ => some 2) rfl (by decide)

/-- Counterexample for C9: the price-data TTL in the code is 3600 seconds
(one hour), not the 24 hours the claim states. -/
theorem price_ttl_counterexample :
    fetch_market_chart_ttl = 3600 ∧ fetch_market_chart_ttl ≠ 86400 := by
  refine ⟨rfl, by decide⟩

/-- C9 (amended): a cache entry is served exactly while its age is below the
TTL (once expired, the fetch runs again), and the TTL constants are 3600 s
(one hour) for the two price-data fetches and 86400 s (24 hours) for the
exchange-rate fetch. -/
theorem cache_ttl_policy {α : Type} (cache : String → Option (CacheEntry α))
    (key : String) (now ttl : ℕ) (f : Unit → α) (e : CacheEntry α)
    (hhit : cache key = some e) :
    (now - e.fetchedAt < ttl → cacheCall cache key now ttl f = ⟨e.value, cache, false⟩)
    ∧ (¬ now - e.fetchedAt < ttl → (cacheCall cache key now ttl f).invoked = true
        ∧ (cacheCall cache key now ttl f).value = f ())
    ∧ fetch_token_info_ttl = 3600
    ∧ fetch_market_chart_ttl = 3600
    ∧ fetch_exchange_rate_ttl = 86400 := by
  refine ⟨?_, ?_, rfl, rfl, rfl⟩ <;> intro h <;> simp [cacheCall, hhit, h]

/-- A cache holding one exchange-rate entry stored at time 100. -/
def exCache : String → Option (CacheEntry (Option ℚ)) :=
  fun k => if k = "exchangerate:2023-06-01" then some ⟨some 2, 100⟩ else none

/-- Witness for C9 (amended): at time 200 the day-old-TTL entry is still
fresh and is served without a fetch. -/
theorem cache_ttl_policy_witness :
    cacheCall exCache "exchangerate:2023-06-01" 200 fetch_exchange_rate_ttl
      (fun _ => none) = ⟨some 2, exCache, false⟩ :=
  (cache_ttl_policy exCache "exchangerate:2023-06-01" 200 fetch_exchange_rate_ttl
    (fun _ => none) ⟨some 2, 100⟩ (by decide)).1 (by decide)
